import Mathlib

/-!
# Zephyr_STM32: periodic tasks, bounded mailbox and the dynamic writer pool

Shallow embedding of the four application files

* `src/main.cpp` of the directory `---` (namespace `Writers`): readers/writers with a button
* `WithGUI/backup/main 4-1b.cpp` (namespace `Backup41b`): hello task with purge
* `WithGUI/src/main.cpp`         (namespace `WithGUI`): LED initialisation and main
* `NoGUI/backup/main-part3-3-2.c` (namespace `NoGUI`): LED initialisation and main

A function of the application becomes a pure function from the part of the
global state it touches to the new state and the list of kernel and
collaborator calls it performs, in program order.  An endless task loop is
embedded as its loop body (one activation) plus an iterator that runs a given
number of activations.
-/

/-! ## Kernel and collaborator calls -/

/-- Severity of a LOG_DBG / LOG_INF / LOG_WRN / LOG_ERR line. -/
inductive LogLevel where
  | dbg
  | inf
  | wrn
  | err
deriving DecidableEq, Repr

/-- Statically defined thread stacks (K_THREAD_STACK_DEFINE and
K_THREAD_STACK_ARRAY_DEFINE); `writer_stacks i` is `writer_stacks[i]`. -/
inductive Stack where
  | display_stack
  | bme680_stack
  | msg_stack
  | hello_stack
  | adc_stack
  | led_stack
  | led0_stack
  | led1_stack
  | led2_stack
  | writer_stacks (i : Int)
deriving DecidableEq, Repr

/-- Thread entry points handed to k_thread_create. -/
inductive Entry where
  | message_display_task
  | display_task
  | bme680_task
  | hello_task
  | writer_task
  | adc_task
  | led_task
  | led0_task
  | led1_task
  | led2_task
deriving DecidableEq, Repr

/-- Mutexes defined with K_MUTEX_DEFINE. -/
inductive Mutex where
  | writer_mutex
  | mutexLEDs
deriving DecidableEq, Repr

/-- GPIO lines of the device tree used by the application. -/
inductive Pin where
  | led0
  | led1
  | button
deriving DecidableEq, Repr

/-- Fixed-size record of the message queue: `struct data_item_type` with its
`char text[MESSAGE_MAX_LEN]` member, held as the characters before the NUL. -/
structure data_item_type where
  text : List Char
deriving DecidableEq, Repr

/-- Timeouts the application passes to the message queue: K_NO_WAIT and
K_MSEC(ms). -/
inductive k_timeout where
  | K_NO_WAIT
  | K_MSEC (ms : Nat)
deriving DecidableEq, Repr

/-- One call made by the application to the kernel, the logger or a
collaborator object, with the arguments that matter.  A log line carries its
format string and its integer arguments (thread names and time stamps, which
are kernel look-ups, are left out).  `k_thread_create` carries the stack, the
entry point, the first thread argument, the priority and whether the kernel
really started the thread.  `k_thread_name_set` carries the thread it names,
identified by its stack, or `none` when the thread id variable was never
assigned. -/
inductive Event where
  | k_timer_init
  | k_timer_start (duration period : Int)
  | k_timer_status_sync
  | log (lvl : LogLevel) (fmt : String) (args : List Int)
  | k_thread_create (stack : Stack) (entry : Entry) (p1 : Int) (prio : Int) (started : Bool)
  | k_thread_name_set (tid : Option Stack) (name : String)
  | k_mutex_lock (m : Mutex)
  | k_mutex_unlock (m : Mutex)
  | k_msleep (ms : Int)
  | k_msgq_put (data : data_item_type) (timeout : k_timeout) (rc : Int)
  | k_msgq_get (timeout : k_timeout) (rc : Int)
  | k_msgq_purge
  | text_add (text : List Char)
  | gpio_pin_configure (pin : Pin) (rc : Int)
  | gpio_pin_set (pin : Pin) (value : Nat)
  | display_init
  | bme680_init
  | adc_init
  | task_handler
  | chart_add_temperature
  | chart_add_humidity
deriving DecidableEq, Repr

namespace Event

/-- Log lines. -/
def isLogLine : Event → Bool
  | log _ _ _ => true
  | _ => false

/-- Calls of the TASK_PREPARE / TASK_START instrumentation on the local timer. -/
def isTimerCall : Event → Bool
  | k_timer_init => true
  | k_timer_start _ _ => true
  | k_timer_status_sync => true
  | _ => false

/-- Calls that create a thread. -/
def isThreadCreate : Event → Bool
  | k_thread_create _ _ _ _ _ => true
  | _ => false

/-- Calls that take a mutex. -/
def isMutexLock : Event → Bool
  | k_mutex_lock _ => true
  | _ => false

end Event

/-- First thread argument of every k_thread_create call of a trace, in call
order: the writer ids handed to the writer tasks. -/
def started_ids : List Event → List Int
  | [] => []
  | Event.k_thread_create _ _ p1 _ _ :: es => p1 :: started_ids es
  | _ :: es => started_ids es

/-- Stack slots handed to k_thread_create, in call order. -/
def claimed_stacks : List Event → List Stack
  | [] => []
  | Event.k_thread_create st _ _ _ _ :: es => st :: claimed_stacks es
  | _ :: es => claimed_stacks es

/-- First thread argument of the k_thread_create calls that really started a
thread. -/
def running_ids : List Event → List Int
  | [] => []
  | Event.k_thread_create _ _ p1 _ true :: es => p1 :: running_ids es
  | _ :: es => running_ids es

/-- Number of warnings with the given format string in a trace. -/
def count_warnings (fmt : String) : List Event → Nat
  | [] => 0
  | Event.log LogLevel.wrn f _ :: es =>
      (if f = fmt then 1 else 0) + count_warnings fmt es
  | _ :: es => count_warnings fmt es

/-! ## Task instrumentation (identical in the `Writers` file and `main 4-1b.cpp`) -/

/-- TASK_PREPARE(given_period): initialise a local timer, start it with zero
initial delay and the given period, log the task. -/
def TASK_PREPARE (given_period : Int) : List Event :=
  [Event.k_timer_init,
   Event.k_timer_start 0 given_period,
   Event.log LogLevel.dbg "Run task %s - Priority %d - Period %d\n" [given_period]]

/-- TASK_START(): wait for the next release of the timer, log, take the start
time. -/
def TASK_START : List Event :=
  [Event.k_timer_status_sync, Event.log LogLevel.dbg "START task %s" []]

/-- TASK_END(): log the elapsed time. -/
def TASK_END : List Event :=
  [Event.log LogLevel.dbg "END task %s - %dms" []]

/-! ## Text formatting -/

/-- The %d conversion of printf: an optional minus sign and the decimal digits,
most significant first. -/
def fmt_d (v : Int) : List Char :=
  if v < 0 then '-' :: Nat.toDigits 10 v.natAbs else Nat.toDigits 10 v.natAbs

/-- Result of snprintf(buf, size, ...) in `buf`: at most `size - 1` characters
of the formatted text are kept, the rest of the buffer being the NUL. -/
def snprintf (size : Nat) (formatted : List Char) : List Char :=
  formatted.take (size - 1)

/-- The %0<width>d conversion of printf: the sign, then zeros up to the minimum
field width, then the decimal digits; %02d is `fmt_0d 2`. -/
def fmt_0d (width : Nat) (v : Int) : List Char :=
  let sign : List Char := if v < 0 then ['-'] else []
  let digits := Nat.toDigits 10 v.natAbs
  sign ++ List.replicate (width - sign.length - digits.length) '0' ++ digits

/-- Result of sprintf(buf, ...) on a buffer of `size` bytes: the formatted text
when it fits with its terminating NUL, `none` when the call writes past the
end of the buffer. -/
def sprintf (size : Nat) (formatted : List Char) : Option (List Char) :=
  if formatted.length + 1 ≤ size then some formatted else none

/-- Range of a 32-bit signed integer. -/
def is_int32 (v : Int) : Prop :=
  -2147483648 ≤ v ∧ v ≤ 2147483647

instance (v : Int) : Decidable (is_int32 v) := by
  unfold is_int32
  exact inferInstance

/-- The sensor reading `struct sensor_value`: integer part `val1` and
millionths `val2`, both int32_t. -/
structure sensor_value where
  val1 : Int
  val2 : Int
deriving DecidableEq, Repr

/-- The text of the format "%d.%02d - %d.%02d" applied to the temperature and
the humidity as the display tasks pass them: `val1` and `val2 / 10000`, the
division being the truncating one of C. -/
def fmt_readings (temperature humidity : sensor_value) : List Char :=
  fmt_d temperature.val1 ++ ['.'] ++ fmt_0d 2 (temperature.val2.tdiv 10000)
    ++ " - ".toList
    ++ fmt_d humidity.val1 ++ ['.'] ++ fmt_0d 2 (humidity.val2.tdiv 10000)

/-! ## Mailbox: the kernel message queue -/

/-- Error numbers the kernel returns negated: no message or no room without
waiting, and wait timed out. -/
def ENOMSG : Int := 35
def EAGAIN : Int := 11

/-- Modelled from the spec: the kernel message queue `struct k_msgq`, whose
code is not among the application sources (section 4.1, Mailbox): a ring of up
to `max_msgs` fixed-size records, held here as the queued records, oldest
first; `msgs.length` is the occupancy. -/
structure k_msgq where
  max_msgs : Nat
  msgs : List data_item_type
deriving DecidableEq, Repr

/-- Modelled from the spec: k_msgq_init(q, buffer, msg_size, max_msgs), not
among the application sources: an empty mailbox of capacity `max_msgs`. -/
def k_msgq_init (max_msgs : Nat) : k_msgq :=
  { max_msgs := max_msgs, msgs := [] }

/-- Modelled from the spec: k_msgq_put, the `try_send` of section 4.1, not
among the application sources.  Rejected (non-zero result, queue unchanged)
when occupied == capacity; otherwise Enqueued (result 0): the record is
appended at the tail.  A sender that would wait meets no receiver in this
sequential model, so its wait times out. -/
def k_msgq_put (q : k_msgq) (data : data_item_type) (timeout : k_timeout) : Int × k_msgq :=
  if q.msgs.length = q.max_msgs then
    match timeout with
    | k_timeout.K_NO_WAIT => (-ENOMSG, q)
    | k_timeout.K_MSEC _ => (-EAGAIN, q)
  else
    (0, { q with msgs := q.msgs ++ [data] })

/-- Modelled from the spec: k_msgq_get, the `receive(timeout)` of section 4.1,
not among the application sources.  With a record queued it removes the oldest
one and copies it into the caller buffer (result 0).  With none queued, and no
sender running during the wait, the outcome is Timeout: a non-zero result,
the buffer `data` and the queue unchanged. -/
def k_msgq_get (q : k_msgq) (data : data_item_type) (timeout : k_timeout) :
    Int × data_item_type × k_msgq :=
  match q.msgs with
  | oldest :: rest => (0, oldest, { q with msgs := rest })
  | [] =>
    match timeout with
    | k_timeout.K_NO_WAIT => (-ENOMSG, data, q)
    | k_timeout.K_MSEC _ => (-EAGAIN, data, q)

/-- Modelled from the spec: k_msgq_purge, the `purge_all` of section 4.1, not
among the application sources: discards all queued records. -/
def k_msgq_purge (q : k_msgq) : k_msgq :=
  { q with msgs := [] }

/-- Texts handed to display.text_add, in call order. -/
def texts_added : List Event → List (List Char)
  | [] => []
  | Event.text_add t :: es => t :: texts_added es
  | _ :: es => texts_added es

/-- Records offered to the mailbox with k_msgq_put, in call order. -/
def records_offered : List Event → List data_item_type
  | [] => []
  | Event.k_msgq_put d _ _ :: es => d :: records_offered es
  | _ :: es => records_offered es

/-- Number of k_msgq_purge calls in a trace. -/
def count_purges : List Event → Nat
  | [] => 0
  | Event.k_msgq_purge :: es => 1 + count_purges es
  | _ :: es => count_purges es

/-! ### Sequences of mailbox operations -/

/-- A non-blocking operation on the mailbox. -/
inductive MailboxOp where
  | try_send (r : data_item_type)
  | receive
deriving DecidableEq, Repr

/-- What an operation answered. -/
inductive MailboxOutcome where
  | Enqueued
  | Rejected
  | Received (r : data_item_type)
  | Timeout
deriving DecidableEq, Repr

/-- A mailbox together with the history of a run: the records of the sends that
were Enqueued, the records received, and the outcome of every operation, all
in order of occurrence. -/
structure MailboxRun where
  q : k_msgq
  enqueued : List data_item_type
  received : List data_item_type
  outcomes : List MailboxOutcome
deriving DecidableEq, Repr

/-- One operation with timeout K_NO_WAIT on the mailbox of the run. -/
def mailbox_step (s : MailboxRun) : MailboxOp → MailboxRun
  | MailboxOp.try_send r =>
      let res := k_msgq_put s.q r k_timeout.K_NO_WAIT
      if res.1 = 0 then
        { s with q := res.2, enqueued := s.enqueued ++ [r],
                 outcomes := s.outcomes ++ [MailboxOutcome.Enqueued] }
      else
        { s with q := res.2, outcomes := s.outcomes ++ [MailboxOutcome.Rejected] }
  | MailboxOp.receive =>
      let res := k_msgq_get s.q { text := [] } k_timeout.K_NO_WAIT
      if res.1 = 0 then
        { s with q := res.2.2, received := s.received ++ [res.2.1],
                 outcomes := s.outcomes ++ [MailboxOutcome.Received res.2.1] }
      else
        { s with q := res.2.2, outcomes := s.outcomes ++ [MailboxOutcome.Timeout] }

/-- The operations `ops`, one after another, on a mailbox initialised with
k_msgq_init for `n` records. -/
def mailbox_run (n : Nat) (ops : List MailboxOp) : MailboxRun :=
  ops.foldl mailbox_step
    { q := k_msgq_init n, enqueued := [], received := [], outcomes := [] }

/-- Invariant of a mailbox run: the capacity is the initial one, the occupancy
never exceeds it, and the records enqueued so far are the records received so
far followed by the records still queued. -/
def MailboxRun.wf (n : Nat) (s : MailboxRun) : Prop :=
  s.q.max_msgs = n ∧ s.q.msgs.length ≤ n ∧ s.enqueued = s.received ++ s.q.msgs

/-! ## Tasks common to the `Writers` file and `main 4-1b.cpp` -/

/-- One activation (loop body) of `message_display_task`, the same text in both
files: wait for the release, receive with a timeout of 100 ms into the local
`msg`, hand its text to display.text_add on success, warn otherwise.  The
state is the mailbox and the local buffer `msg`. -/
def message_display_task_body (q : k_msgq) (msg : data_item_type) :
    (k_msgq × data_item_type) × List Event :=
  let res := k_msgq_get q msg (k_timeout.K_MSEC 100)
  ((res.2.2, res.2.1),
   TASK_START
    ++ [Event.k_msgq_get (k_timeout.K_MSEC 100) res.1]
    ++ (if res.1 = 0 then [Event.text_add res.2.1.text]
        else [Event.log LogLevel.wrn "Message queue timeout" []])
    ++ TASK_END)

/-- The first `n` activations of the endless loop of `message_display_task`,
with no other task touching the mailbox in between. -/
def message_display_task_loop :
    Nat → k_msgq → data_item_type → (k_msgq × data_item_type) × List Event
  | 0, q, msg => ((q, msg), [])
  | n + 1, q, msg =>
      let first := message_display_task_body q msg
      let rest := message_display_task_loop n first.1.1 first.1.2
      (rest.1, first.2 ++ rest.2)

/-- The task `message_display_task` up to the end of its activation number `n`:
TASK_PREPARE(PERIOD_DISPLAY_TASK), with the period 1000 of both files, then the
loop. -/
def message_display_task (n : Nat) (q : k_msgq) (msg : data_item_type) :
    (k_msgq × data_item_type) × List Event :=
  let run := message_display_task_loop n q msg
  (run.1, TASK_PREPARE 1000 ++ run.2)

/-! ## `src/main.cpp` of the directory `---`: readers/writers with dynamic writer addition -/

namespace Writers

def MESSAGE_QUEUE_SIZE : Nat := 10
def MESSAGE_MAX_LEN : Nat := 50
def PRIO_DISPLAY_TASK : Int := 4
def PRIO_BME680_TASK : Int := 3
def PRIO_WRITER_TASK : Int := 2
def PERIOD_DISPLAY_TASK : Int := 1000
def PERIOD_BME680_TASK : Int := 500
def MAX_WRITERS : Nat := 5

/-- The mailbox `my_msgq` as `main` initialises it. -/
def my_msgq : k_msgq := k_msgq_init MESSAGE_QUEUE_SIZE

/-- One run of `button_pressed_callback`.  `current_writer_count` is the global
counter on entry; the result is the counter on exit and the calls made.  The
capacity is a parameter (the source fixes it to MAX_WRITERS) and `create_ok`
is the outcome of k_thread_create, which the callback does not inspect.  The
increment is only reached below the capacity, so it cannot overflow an int
for a capacity that fits one. -/
def button_pressed_callback (max_writers : Nat) (create_ok : Bool)
    (current_writer_count : Int) : Int × List Event :=
  let entry := TASK_PREPARE PERIOD_DISPLAY_TASK
    ++ [Event.log LogLevel.inf "Button pressed" []]
    ++ TASK_START
  if current_writer_count < (max_writers : Int) then
    let writer_id := current_writer_count
    (current_writer_count + 1,
     entry
      ++ [Event.k_thread_create (Stack.writer_stacks writer_id) Entry.writer_task
            writer_id PRIO_WRITER_TASK create_ok,
          Event.k_thread_name_set none "wr",
          Event.log LogLevel.inf "Writer %d added" [writer_id]]
      ++ TASK_END)
  else
    (current_writer_count,
     entry ++ [Event.log LogLevel.wrn "Max writers reached" []] ++ TASK_END)

/-- Counter and accumulated calls after the first `k` button triggers, handled
one after another from the initial state `current_writer_count = 0`;
`outcome i` is the outcome of k_thread_create at trigger number `i` (counted
from 0) if that trigger reaches it. -/
def run_triggers (max_writers : Nat) (outcome : Nat → Bool) : Nat → Int × List Event
  | 0 => (0, [])
  | k + 1 =>
      let before := run_triggers max_writers outcome k
      let step := button_pressed_callback max_writers (outcome k) before.1
      (step.1, before.2 ++ step.2)

/-- One iteration (loop body) of `writer_task`: format the record with the
writer id, offer it once without waiting, warn when it is refused, sleep 2 s. -/
def writer_task_body (writer_id : Int) (q : k_msgq) : k_msgq × List Event :=
  let msg : data_item_type :=
    { text := snprintf MESSAGE_MAX_LEN
        ("Writer ".toList ++ fmt_d writer_id ++ ": writing a message".toList) }
  let res := k_msgq_put q msg k_timeout.K_NO_WAIT
  (res.2,
   [Event.k_msgq_put msg k_timeout.K_NO_WAIT res.1]
    ++ (if res.1 ≠ 0 then [Event.log LogLevel.wrn "Message queue full. Message dropped." []]
        else [])
    ++ [Event.k_msleep 2000])

/-- The first `n` iterations of the endless loop of `writer_task`, with no other
task touching the mailbox in between. -/
def writer_task : Nat → Int → k_msgq → k_msgq × List Event
  | 0, _, q => (q, [])
  | n + 1, writer_id, q =>
      let first := writer_task_body writer_id q
      let rest := writer_task n writer_id first.1
      (rest.1, first.2 ++ rest.2)

/-! ### The callback at the granularity of its accesses to the counter -/

/-- Program points of one run of `button_pressed_callback`: before the
comparison, before the read of `current_writer_count++`, before its write,
before k_thread_create, and finished. -/
inductive Pc where
  | check
  | load
  | store
  | create
  | done
deriving DecidableEq, Repr

/-- One run of the callback in progress: its program point, its local
`writer_id` and the calls it has made. -/
structure Invocation where
  pc : Pc
  writer_id : Int
  events : List Event
deriving DecidableEq, Repr

/-- A run of the callback that has not started. -/
def Invocation.start : Invocation :=
  { pc := Pc.check, writer_id := 0, events := [] }

/-- One step of a run of the callback on the shared counter `count`; the
result is the counter after the step and the run after it.  The statement
`int writer_id = current_writer_count++` is a read followed by a write of the
plain global; the source takes no lock around it. -/
def callback_step (max_writers : Nat) (create_ok : Bool) (count : Int) (t : Invocation) :
    Int × Invocation :=
  match t.pc with
  | Pc.check =>
      let entry := TASK_PREPARE PERIOD_DISPLAY_TASK
        ++ [Event.log LogLevel.inf "Button pressed" []]
        ++ TASK_START
      if count < (max_writers : Int) then
        (count, { t with pc := Pc.load, events := t.events ++ entry })
      else
        (count, { t with pc := Pc.done,
                         events := t.events ++ entry
                           ++ [Event.log LogLevel.wrn "Max writers reached" []] ++ TASK_END })
  | Pc.load => (count, { t with pc := Pc.store, writer_id := count })
  | Pc.store => (t.writer_id + 1, { t with pc := Pc.create })
  | Pc.create =>
      (count, { t with pc := Pc.done,
                       events := t.events
                         ++ [Event.k_thread_create (Stack.writer_stacks t.writer_id)
                               Entry.writer_task t.writer_id PRIO_WRITER_TASK create_ok,
                             Event.k_thread_name_set none "wr",
                             Event.log LogLevel.inf "Writer %d added" [t.writer_id]]
                         ++ TASK_END })
  | Pc.done => (count, t)

/-- Two runs of the callback on the same counter under a schedule: at each
entry of the schedule the first run (`false`) or the second (`true`) takes
one step. -/
def run_schedule (max_writers : Nat) :
    List Bool → Int × Invocation × Invocation → Int × Invocation × Invocation
  | [], s => s
  | false :: rest, (count, t1, t2) =>
      let r := callback_step max_writers true count t1
      run_schedule max_writers rest (r.1, r.2, t2)
  | true :: rest, (count, t1, t2) =>
      let r := callback_step max_writers true count t2
      run_schedule max_writers rest (r.1, t1, r.2)

/-- One run of the callback alone: its four steps in a row. -/
def callback_alone (max_writers : Nat) (create_ok : Bool) (count : Int) : Int × Invocation :=
  let s1 := callback_step max_writers create_ok count Invocation.start
  let s2 := callback_step max_writers create_ok s1.1 s1.2
  let s3 := callback_step max_writers create_ok s2.1 s2.2
  callback_step max_writers create_ok s3.1 s3.2

end Writers

/-! ## `WithGUI/backup/main 4-1b.cpp`: hello task with purge on a full mailbox -/

namespace Backup41b

def MESSAGE_QUEUE_SIZE : Nat := 10
def MESSAGE_MAX_LEN : Nat := 50
def PERIOD_HELLO_TASK : Int := 1000

/-- The mailbox `my_msgq` as `main` initialises it. -/
def my_msgq : k_msgq := k_msgq_init MESSAGE_QUEUE_SIZE

/-- One activation (loop body) of `hello_task`: format the fixed record, offer
it once without waiting; when it is refused, warn and purge the mailbox. -/
def hello_task_body (q : k_msgq) : k_msgq × List Event :=
  let msg : data_item_type :=
    { text := snprintf MESSAGE_MAX_LEN "hello task: hello\n".toList }
  let res := k_msgq_put q msg k_timeout.K_NO_WAIT
  if res.1 ≠ 0 then
    (k_msgq_purge res.2,
     TASK_START
      ++ [Event.k_msgq_put msg k_timeout.K_NO_WAIT res.1,
          Event.log LogLevel.wrn "Message queue full. Message dropped." [],
          Event.k_msgq_purge]
      ++ TASK_END)
  else
    (res.2,
     TASK_START ++ [Event.k_msgq_put msg k_timeout.K_NO_WAIT res.1] ++ TASK_END)

/-- One activation (loop body) of `display_task` of `main 4-1b.cpp`: redraw,
add the chart samples, format the readings into the record with snprintf and
offer it once without waiting. -/
def display_task_body (temperature humidity : sensor_value) (q : k_msgq) :
    k_msgq × List Event :=
  let msg : data_item_type :=
    { text := snprintf MESSAGE_MAX_LEN
        ("display task: ".toList ++ fmt_readings temperature humidity) }
  let res := k_msgq_put q msg k_timeout.K_NO_WAIT
  (res.2,
   TASK_START
    ++ [Event.task_handler, Event.chart_add_temperature, Event.chart_add_humidity,
        Event.k_msgq_put msg k_timeout.K_NO_WAIT res.1]
    ++ (if res.1 ≠ 0 then [Event.log LogLevel.wrn "Message queue full. Message dropped." []]
        else [])
    ++ TASK_END)

end Backup41b

/-! ## LED initialisation and `main` of `WithGUI/src/main.cpp` and of the NoGUI backup -/

/-- Value an `int` expression takes when stored in a `uint8_t`. -/
def to_uint8 (v : Int) : Nat :=
  (v % 256).toNat

namespace WithGUI

def PRIO_DISPLAY_TASK : Int := 4
def PRIO_BME680_TASK : Int := 2
def PRIO_ABC_TASK : Int := 1
def PRIO_LED_TASK : Int := 3

/-- The function `update_leds(led0_val)`: set the LED under the mutex (the lock
with K_FOREVER is granted when no other thread holds it). -/
def update_leds (led0_val : Nat) : List Event :=
  [Event.k_mutex_lock Mutex.mutexLEDs,
   Event.gpio_pin_set Pin.led0 led0_val,
   Event.k_mutex_unlock Mutex.mutexLEDs]

/-- The function `uint8_t init_leds()`.  `led0_ready` is the answer of
device_is_ready(led0.port) and `led0_configure` the result of
gpio_pin_configure_dt(&led0, GPIO_OUTPUT_ACTIVE).  The local `returned` is a
uint8_t, so the assignments of -1 and -2 store 255 and 254. -/
def init_leds (led0_ready : Bool) (led0_configure : Int) : Nat × List Event :=
  let returned0 : Nat := 0
  let r1 : Nat × List Event :=
    if !led0_ready then
      (to_uint8 (-1), [Event.log LogLevel.err "Error: LEDs devices are not ready (%s" []])
    else (returned0, [])
  let r2 : Nat × List Event :=
    if led0_configure < 0 then
      (to_uint8 (-2), [Event.log LogLevel.err "Error: LEDs config failed %s " []])
    else (r1.1, [])
  (r2.1, r1.2 ++ [Event.gpio_pin_configure Pin.led0 led0_configure] ++ r2.2)

/-- The function `main`: its return value and the calls it makes.  The test
`init_leds() < 0` compares the uint8_t result, promoted to int, with 0. -/
def main (led0_ready : Bool) (led0_configure : Int) : Int × List Event :=
  let init := init_leds led0_ready led0_configure
  let before := [Event.display_init, Event.bme680_init, Event.adc_init] ++ init.2
  if ((init.1 : Nat) : Int) < 0 then
    (0, before ++ [Event.log LogLevel.err "Error: %s" []])
  else
    (0,
     before ++ update_leds 0
      ++ [Event.k_thread_create Stack.display_stack Entry.display_task 0 PRIO_DISPLAY_TASK true,
          Event.k_thread_name_set (some Stack.display_stack) "display",
          Event.k_thread_create Stack.bme680_stack Entry.bme680_task 0 PRIO_BME680_TASK true,
          Event.k_thread_name_set (some Stack.bme680_stack) "bme680",
          Event.k_thread_create Stack.adc_stack Entry.adc_task 0 PRIO_ABC_TASK true,
          Event.k_thread_name_set (some Stack.adc_stack) "adc",
          Event.k_thread_create Stack.led_stack Entry.led_task 0 PRIO_LED_TASK true,
          Event.k_thread_name_set (some Stack.led_stack) "led"])

def PERIOD_DISPLAY_TASK : Int := 2000

/-- TASK_START() of this file: as the common one, logged with LOG_INF. -/
def TASK_START : List Event :=
  [Event.k_timer_status_sync, Event.log LogLevel.inf "START task %s" []]

/-- TASK_END() of this file: logged with LOG_INF. -/
def TASK_END : List Event :=
  [Event.log LogLevel.inf "END task %s - %dms" []]

/-- One activation (loop body) of `display_task`, with the sensor readings and
the value of adc.get_value() as inputs: redraw, add the chart samples, then
two sprintf calls into the local `char text[50]`, each followed by
display.text_add.  The result is `none` when a sprintf writes past the
buffer. -/
def display_task_body (temperature humidity : sensor_value) (adc_value : Int) :
    Option (List Event) :=
  match sprintf 50 (fmt_readings temperature humidity) with
  | none => none
  | some text1 =>
    match sprintf 50 (fmt_d adc_value) with
    | none => none
    | some text2 =>
      some (TASK_START
        ++ [Event.task_handler, Event.chart_add_temperature, Event.chart_add_humidity,
            Event.text_add text1, Event.text_add text2]
        ++ TASK_END)

end WithGUI

namespace NoGUI

/-- The function `uint8_t init_leds()` of the NoGUI file, for two LEDs.  The two
configure calls are joined by `||`: the second is made only when the first
did not fail. -/
def init_leds (led0_ready led1_ready : Bool) (led0_configure led1_configure : Int) :
    Nat × List Event :=
  let returned0 : Nat := 0
  let r1 : Nat × List Event :=
    if !led0_ready || !led1_ready then
      (to_uint8 (-1),
       [Event.log LogLevel.err "Error: LEDs devices are not ready (%s / %s)" []])
    else (returned0, [])
  let configure : List Event :=
    if led0_configure < 0 then [Event.gpio_pin_configure Pin.led0 led0_configure]
    else [Event.gpio_pin_configure Pin.led0 led0_configure,
          Event.gpio_pin_configure Pin.led1 led1_configure]
  let r2 : Nat × List Event :=
    if led0_configure < 0 ∨ led1_configure < 0 then
      (to_uint8 (-2), [Event.log LogLevel.err "Error: LEDs config failed (%s / %s)." []])
    else (r1.1, [])
  (r2.1, r1.2 ++ configure ++ r2.2)

/-- The function `void main(void)` of the NoGUI file: the calls it makes. -/
def main (led0_ready led1_ready : Bool) (led0_configure led1_configure : Int) : List Event :=
  let init := init_leds led0_ready led1_ready led0_configure led1_configure
  if ((init.1 : Nat) : Int) < 0 then
    init.2 ++ [Event.log LogLevel.err "Error: %s" []]
  else
    init.2
      ++ [Event.k_thread_create Stack.led0_stack Entry.led0_task 0 1 true,
          Event.k_thread_create Stack.led1_stack Entry.led1_task 0 2 true,
          Event.k_thread_create Stack.led2_stack Entry.led2_task 0 3 true]

end NoGUI

/-! ## Theorems -/

section TraceLemmas

theorem started_ids_append (a b : List Event) :
    started_ids (a ++ b) = started_ids a ++ started_ids b := by
  induction a with
  | nil => rfl
  | cons e es ih => cases e <;> simp [started_ids, ih]

theorem claimed_stacks_append (a b : List Event) :
    claimed_stacks (a ++ b) = claimed_stacks a ++ claimed_stacks b := by
  induction a with
  | nil => rfl
  | cons e es ih => cases e <;> simp [claimed_stacks, ih]

theorem running_ids_append (a b : List Event) :
    running_ids (a ++ b) = running_ids a ++ running_ids b := by
  induction a with
  | nil => rfl
  | cons e es ih =>
    cases e with
    | k_thread_create st en p1 pr ok => cases ok <;> simp [running_ids, ih]
    | _ => simp [running_ids, ih]

theorem count_warnings_append (fmt : String) (a b : List Event) :
    count_warnings fmt (a ++ b) = count_warnings fmt a + count_warnings fmt b := by
  induction a with
  | nil => simp [count_warnings]
  | cons e es ih =>
    cases e with
    | log lvl f args => cases lvl <;> simp [count_warnings, ih, Nat.add_assoc]
    | _ => simp [count_warnings, ih]

end TraceLemmas

namespace Writers

theorem callback_below (cap : Nat) (ok : Bool) (c : Int) (h : c < (cap : Int)) :
    button_pressed_callback cap ok c =
      (c + 1,
       TASK_PREPARE PERIOD_DISPLAY_TASK ++ [Event.log LogLevel.inf "Button pressed" []]
        ++ TASK_START
        ++ [Event.k_thread_create (Stack.writer_stacks c) Entry.writer_task c
              PRIO_WRITER_TASK ok,
            Event.k_thread_name_set none "wr",
            Event.log LogLevel.inf "Writer %d added" [c]]
        ++ TASK_END) := by
  simp [button_pressed_callback, h]

theorem callback_full (cap : Nat) (ok : Bool) (c : Int) (h : ¬ c < (cap : Int)) :
    button_pressed_callback cap ok c =
      (c,
       TASK_PREPARE PERIOD_DISPLAY_TASK ++ [Event.log LogLevel.inf "Button pressed" []]
        ++ TASK_START
        ++ [Event.log LogLevel.wrn "Max writers reached" []] ++ TASK_END) := by
  simp [button_pressed_callback, h]

theorem run_triggers_count (cap : Nat) (outcome : Nat → Bool) (k : Nat) :
    (run_triggers cap outcome k).1 = ((min k cap : Nat) : Int) := by
  induction k with
  | zero => simp [run_triggers]
  | succ k ih =>
    simp only [run_triggers]
    by_cases h : k < cap
    · have hc : (run_triggers cap outcome k).1 < (cap : Int) := by
        rw [ih]; omega
      rw [callback_below cap _ _ hc, ih]
      omega
    · have hc : ¬ (run_triggers cap outcome k).1 < (cap : Int) := by
        rw [ih]; omega
      rw [callback_full cap _ _ hc, ih]
      omega

theorem run_triggers_ids (cap : Nat) (outcome : Nat → Bool) (k : Nat) :
    started_ids (run_triggers cap outcome k).2
      = (List.range (min k cap)).map Int.ofNat := by
  induction k with
  | zero => simp [run_triggers, started_ids]
  | succ k ih =>
    simp only [run_triggers]
    have hcnt := run_triggers_count cap outcome k
    by_cases h : k < cap
    · have hc : (run_triggers cap outcome k).1 < (cap : Int) := by
        rw [hcnt]; omega
      rw [callback_below cap _ _ hc, started_ids_append, ih, hcnt]
      have h1 : min k cap = k := by omega
      have h2 : min (k + 1) cap = k + 1 := by omega
      rw [h1, h2, List.range_succ]
      simp [started_ids, TASK_PREPARE, TASK_START, TASK_END]
    · have hc : ¬ (run_triggers cap outcome k).1 < (cap : Int) := by
        rw [hcnt]; omega
      rw [callback_full cap _ _ hc, started_ids_append, ih]
      have h1 : min k cap = cap := by omega
      have h2 : min (k + 1) cap = cap := by omega
      rw [h1, h2]
      simp [started_ids, TASK_PREPARE, TASK_START, TASK_END]

theorem run_triggers_rejections (cap : Nat) (outcome : Nat → Bool) (k : Nat) :
    count_warnings "Max writers reached" (run_triggers cap outcome k).2 = k - cap := by
  induction k with
  | zero => simp [run_triggers, count_warnings]
  | succ k ih =>
    simp only [run_triggers]
    have hcnt := run_triggers_count cap outcome k
    by_cases h : k < cap
    · have hc : (run_triggers cap outcome k).1 < (cap : Int) := by
        rw [hcnt]; omega
      rw [callback_below cap _ _ hc, count_warnings_append, ih]
      simp [count_warnings, TASK_PREPARE, TASK_START, TASK_END]
      omega
    · have hc : ¬ (run_triggers cap outcome k).1 < (cap : Int) := by
        rw [hcnt]; omega
      rw [callback_full cap _ _ hc, count_warnings_append, ih]
      simp [count_warnings, TASK_PREPARE, TASK_START, TASK_END]
      omega

theorem run_triggers_running (cap : Nat) (outcome : Nat → Bool) (k : Nat) :
    running_ids (run_triggers cap outcome k).2
      = ((List.range (min k cap)).filter outcome).map Int.ofNat := by
  induction k with
  | zero => simp [run_triggers, running_ids]
  | succ k ih =>
    simp only [run_triggers]
    have hcnt := run_triggers_count cap outcome k
    by_cases h : k < cap
    · have hc : (run_triggers cap outcome k).1 < (cap : Int) := by
        rw [hcnt]; omega
      rw [callback_below cap _ _ hc, running_ids_append, ih, hcnt]
      have h1 : min k cap = k := by omega
      have h2 : min (k + 1) cap = k + 1 := by omega
      rw [h1, h2, List.range_succ, List.filter_append]
      cases hk : outcome k <;>
        simp [running_ids, TASK_PREPARE, TASK_START, TASK_END, List.filter, hk]
    · have hc : ¬ (run_triggers cap outcome k).1 < (cap : Int) := by
        rw [hcnt]; omega
      rw [callback_full cap _ _ hc, running_ids_append, ih]
      have h1 : min k cap = cap := by omega
      have h2 : min (k + 1) cap = cap := by omega
      rw [h1, h2]
      simp [running_ids, TASK_PREPARE, TASK_START, TASK_END]

/-- C1: for button triggers handled one after another from
`current_writer_count = 0`, the writer ids handed to k_thread_create are, in
order of trigger occurrence, exactly 0, 1, 2, ...: after `k` triggers the list
of ids is `[0, 1, ..., min k cap - 1]`, its entry number `j` (from 0) is `j`,
and it has no repetition; this holds whatever k_thread_create answers. -/
theorem C1_writer_ids_sequential (cap : Nat) (outcome : Nat → Bool) (k : Nat) :
    started_ids (run_triggers cap outcome k).2
        = (List.range (min k cap)).map Int.ofNat
      ∧ (∀ j : Nat, (started_ids (run_triggers cap outcome k).2)[j]?
          = if j < min k cap then some (j : Int) else none)
      ∧ (started_ids (run_triggers cap outcome k).2).Nodup
      ∧ started_ids (run_triggers MAX_WRITERS outcome k).2
        = (List.range (min k 5)).map Int.ofNat := by
  refine ⟨run_triggers_ids cap outcome k, ?_, ?_, run_triggers_ids MAX_WRITERS outcome k⟩
  · intro j
    rw [run_triggers_ids, List.getElem?_map]
    by_cases hj : j < min k cap
    · rw [List.getElem?_range hj, if_pos hj]; rfl
    · rw [if_neg hj, List.getElem?_eq_none (by simpa using Nat.le_of_not_lt hj)]; rfl
  · rw [run_triggers_ids]
    refine List.Nodup.map ?_ (List.nodup_range _)
    intro a b hab
    exact Int.ofNat.inj hab

/-- C2: for every capacity and every number `k` of triggers handled from the
initial state, the counter stays within `0 .. capacity`, exactly
`min k capacity` writers are started and `k - capacity` (truncated at 0)
triggers are rejected with the warning "Max writers reached"; the trigger
that follows `capacity` triggers starts no writer; with capacity 3 and 5
triggers the ids started are 0, 1, 2, there are 2 rejections and the counter
ends at 3. -/
theorem C2_pool_bounded (cap : Nat) (outcome : Nat → Bool) (k : Nat) :
    0 ≤ (run_triggers cap outcome k).1
      ∧ (run_triggers cap outcome k).1 ≤ (cap : Int)
      ∧ (run_triggers cap outcome k).1 = ((min k cap : Nat) : Int)
      ∧ (started_ids (run_triggers cap outcome k).2).length = min k cap
      ∧ count_warnings "Max writers reached" (run_triggers cap outcome k).2 = k - cap
      ∧ started_ids
          (button_pressed_callback cap (outcome cap) (run_triggers cap outcome cap).1).2 = []
      ∧ count_warnings "Max writers reached"
          (button_pressed_callback cap (outcome cap) (run_triggers cap outcome cap).1).2 = 1
      ∧ started_ids (run_triggers 3 outcome 5).2 = [0, 1, 2]
      ∧ count_warnings "Max writers reached" (run_triggers 3 outcome 5).2 = 2
      ∧ (run_triggers 3 outcome 5).1 = 3 := by
  have hfull : ¬ (run_triggers cap outcome cap).1 < (cap : Int) := by
    rw [run_triggers_count]; omega
  refine ⟨?_, ?_, run_triggers_count cap outcome k, ?_, run_triggers_rejections cap outcome k,
    ?_, ?_, ?_, ?_, ?_⟩
  · rw [run_triggers_count]; omega
  · rw [run_triggers_count]; omega
  · rw [run_triggers_ids]; simp
  · rw [callback_full cap _ _ hfull]
    simp [started_ids, TASK_PREPARE, TASK_START, TASK_END]
  · rw [callback_full cap _ _ hfull]
    simp [count_warnings, TASK_PREPARE, TASK_START, TASK_END]
  · rw [run_triggers_ids]; decide
  · rw [run_triggers_rejections]
  · rw [run_triggers_count]; decide

/-- C3 as stated fails: run at `current_writer_count = MAX_WRITERS`, the
callback still initialises and starts a kernel timer, so it is not true that
every call it makes is a log line. -/
theorem C3_full_pool_still_starts_timer :
    ¬ ((button_pressed_callback MAX_WRITERS true (MAX_WRITERS : Int)).1 = (MAX_WRITERS : Int)
        ∧ started_ids (button_pressed_callback MAX_WRITERS true (MAX_WRITERS : Int)).2 = []
        ∧ ∀ e ∈ (button_pressed_callback MAX_WRITERS true (MAX_WRITERS : Int)).2,
            e.isLogLine = true) := by
  intro h
  have := h.2.2 (Event.k_timer_start 0 1000) (by
    simp [button_pressed_callback, MAX_WRITERS, TASK_PREPARE, PERIOD_DISPLAY_TASK])
  simp [Event.isLogLine] at this

/-- C3 amended: run at `current_writer_count` equal to the capacity, the
callback leaves the counter unchanged, creates no thread and claims no writer
stack slot; the calls it makes are exactly the instrumentation of every run
(timer initialised, started with period 1000 ms and waited on, debug lines),
the "Button pressed" line and the "Max writers reached" warning, so every
call is a log line or a call on the local timer. -/
theorem C3_full_pool_no_pool_effect (cap : Nat) (ok : Bool) :
    (button_pressed_callback cap ok (cap : Int)).1 = (cap : Int)
      ∧ started_ids (button_pressed_callback cap ok (cap : Int)).2 = []
      ∧ claimed_stacks (button_pressed_callback cap ok (cap : Int)).2 = []
      ∧ (button_pressed_callback cap ok (cap : Int)).2
          = [Event.k_timer_init,
             Event.k_timer_start 0 1000,
             Event.log LogLevel.dbg "Run task %s - Priority %d - Period %d\n" [1000],
             Event.log LogLevel.inf "Button pressed" [],
             Event.k_timer_status_sync,
             Event.log LogLevel.dbg "START task %s" [],
             Event.log LogLevel.wrn "Max writers reached" [],
             Event.log LogLevel.dbg "END task %s - %dms" []]
      ∧ ∀ e ∈ (button_pressed_callback cap ok (cap : Int)).2,
          e.isLogLine = true ∨ e.isTimerCall = true := by
  have hfull : ¬ ((cap : Int) < (cap : Int)) := by omega
  rw [callback_full cap ok _ hfull]
  refine ⟨rfl, ?_, ?_, ?_, ?_⟩
  · simp [started_ids, TASK_PREPARE, TASK_START, TASK_END]
  · simp [claimed_stacks, TASK_PREPARE, TASK_START, TASK_END]
  · simp [TASK_PREPARE, TASK_START, TASK_END, PERIOD_DISPLAY_TASK]
  · intro e he
    simp [TASK_PREPARE, TASK_START, TASK_END] at he
    rcases he with h | h | h | h | h | h | h | h <;> subst h <;>
      simp [Event.isLogLine, Event.isTimerCall]

theorem callback_alone_eq (cap : Nat) (ok : Bool) (c : Int) :
    (callback_alone cap ok c).1 = (button_pressed_callback cap ok c).1
      ∧ (callback_alone cap ok c).2.events = (button_pressed_callback cap ok c).2
      ∧ (callback_alone cap ok c).2.pc = Pc.done := by
  by_cases h : c < (cap : Int)
  · simp [callback_alone, callback_step, button_pressed_callback, Invocation.start, h]
  · simp [callback_alone, callback_step, button_pressed_callback, Invocation.start, h]

theorem callback_never_locks (cap : Nat) (ok : Bool) (c : Int) :
    (button_pressed_callback cap ok c).2.any Event.isMutexLock = false := by
  by_cases h : c < (cap : Int)
  · rw [callback_below cap ok c h]
    simp [TASK_PREPARE, TASK_START, TASK_END, Event.isMutexLock]
  · rw [callback_full cap ok c h]
    simp [TASK_PREPARE, TASK_START, TASK_END, Event.isMutexLock]

/-- C4 on the code: `button_pressed_callback` never takes `writer_mutex` (no
run of it makes a k_mutex_lock call), its step-wise form agrees with the
function when run alone, and for two runs started at
`current_writer_count = 0` and interleaved as check, read, check, read,
write, write, create, create, both runs read the same counter value 0, both
hand writer id 0 and stack slot `writer_stacks[0]` to k_thread_create, and
the counter ends at 1. -/
theorem C4_unlocked_counter_duplicate_id :
    (∀ (cap : Nat) (ok : Bool) (c : Int),
        (button_pressed_callback cap ok c).2.any Event.isMutexLock = false)
      ∧ (∀ (cap : Nat) (ok : Bool) (c : Int),
          (callback_alone cap ok c).1 = (button_pressed_callback cap ok c).1
            ∧ (callback_alone cap ok c).2.events = (button_pressed_callback cap ok c).2)
      ∧ (run_schedule MAX_WRITERS [false, false, true, true, false, true, false, true]
          (0, Invocation.start, Invocation.start)).1 = 1
      ∧ (run_schedule MAX_WRITERS [false, false, true, true, false, true, false, true]
          (0, Invocation.start, Invocation.start)).2.1.pc = Pc.done
      ∧ (run_schedule MAX_WRITERS [false, false, true, true, false, true, false, true]
          (0, Invocation.start, Invocation.start)).2.2.pc = Pc.done
      ∧ started_ids (run_schedule MAX_WRITERS [false, false, true, true, false, true, false, true]
          (0, Invocation.start, Invocation.start)).2.1.events = [0]
      ∧ started_ids (run_schedule MAX_WRITERS [false, false, true, true, false, true, false, true]
          (0, Invocation.start, Invocation.start)).2.2.events = [0]
      ∧ claimed_stacks (run_schedule MAX_WRITERS
          [false, false, true, true, false, true, false, true]
          (0, Invocation.start, Invocation.start)).2.1.events = [Stack.writer_stacks 0]
      ∧ claimed_stacks (run_schedule MAX_WRITERS
          [false, false, true, true, false, true, false, true]
          (0, Invocation.start, Invocation.start)).2.2.events = [Stack.writer_stacks 0] := by
  refine ⟨callback_never_locks, fun cap ok c => ⟨(callback_alone_eq cap ok c).1,
    (callback_alone_eq cap ok c).2.1⟩, ?_, ?_, ?_, ?_, ?_, ?_, ?_⟩ <;> decide

theorem running_bound (cap : Nat) (outcome : Nat → Bool) (i : Nat) (hi : i < cap)
    (hfail : outcome i = false) (n : Nat) (hn : n ≤ cap) :
    ((List.range n).filter outcome).length + 1 ≤ cap := by
  by_cases h : i < n
  · have hlt : ((List.range n).filter outcome).length < (List.range n).length := by
      rw [List.length_filter_lt_length_iff_exists]
      exact ⟨i, List.mem_range.mpr h, by simp [hfail]⟩
    rw [List.length_range] at hlt
    omega
  · have hle := List.length_filter_le outcome (List.range n)
    rw [List.length_range] at hle
    omega

theorem running_one_less (f : Nat → Bool) (i : Nat) (hfail : f i = false) (n : Nat)
    (hi : i < n) :
    ((List.range n).filter (Function.update f i true)).length
      = ((List.range n).filter f).length + 1 := by
  induction n with
  | zero => omega
  | succ n ih =>
    rw [List.range_succ, List.filter_append, List.filter_append, List.length_append,
      List.length_append]
    by_cases hin : i = n
    · subst hin
      have hsame : (List.range i).filter (Function.update f i true)
          = (List.range i).filter f := by
        apply List.filter_congr
        intro j hj
        have hne : j ≠ i := Nat.ne_of_lt (List.mem_range.mp hj)
        simp [Function.update, hne]
      rw [hsame]
      simp [List.filter, hfail]
    · have hlt : i < n := by omega
      have hlast : Function.update f i true n = f n := by
        simp [Function.update, Ne.symm hin]
      rw [ih hlt]
      simp only [List.filter, hlast]
      omega

/-- C10: below the capacity the callback increments the counter by exactly
one whatever k_thread_create answers; after any number `k` of triggers the
counter is `min k capacity`, never rolled back, while the writers really
running are the ids below it whose start succeeded; so once the start at
trigger `i` (within the capacity) has failed, fewer than `capacity` writers
run for ever after, exactly one fewer than if that start had succeeded: the
slot is lost. -/
theorem C10_no_rollback_on_failed_start (cap : Nat) (c : Int) (hc : c < (cap : Int))
    (outcome : Nat → Bool) (i : Nat) (hi : i < cap) (hfail : outcome i = false) :
    (∀ ok : Bool, (button_pressed_callback cap ok c).1 = c + 1)
      ∧ (button_pressed_callback cap (outcome i) (i : Int)).1 = (i : Int) + 1
      ∧ running_ids (button_pressed_callback cap (outcome i) (i : Int)).2 = []
      ∧ (∀ k : Nat, (run_triggers cap outcome k).1 = ((min k cap : Nat) : Int))
      ∧ (∀ k : Nat, running_ids (run_triggers cap outcome k).2
          = ((List.range (min k cap)).filter outcome).map Int.ofNat)
      ∧ (∀ k : Nat, (running_ids (run_triggers cap outcome k).2).length + 1 ≤ cap)
      ∧ (∀ k : Nat, i < k →
          (running_ids (run_triggers cap (Function.update outcome i true) k).2).length
            = (running_ids (run_triggers cap outcome k).2).length + 1) := by
  have hi' : ((i : Nat) : Int) < (cap : Int) := by omega
  refine ⟨fun ok => ?_, ?_, ?_, run_triggers_count cap outcome,
    run_triggers_running cap outcome, fun k => ?_, fun k hk => ?_⟩
  · rw [callback_below cap ok c hc]
  · rw [callback_below cap _ _ hi']
  · rw [callback_below cap _ _ hi', hfail]
    simp [running_ids, TASK_PREPARE, TASK_START, TASK_END]
  · rw [run_triggers_running, List.length_map]
    exact running_bound cap outcome i hi hfail (min k cap) (Nat.min_le_right k cap)
  · rw [run_triggers_running, run_triggers_running, List.length_map, List.length_map]
    exact running_one_less outcome i hfail (min k cap) (by omega)

/-- C10 at capacity 5 with every start failing, from counter 0: the counter
still counts to 5 and no writer ever runs. -/
theorem C10_no_rollback_witness :
    (∀ ok : Bool, (button_pressed_callback 5 ok 0).1 = 0 + 1)
      ∧ (∀ k : Nat, (run_triggers 5 (fun _ => false) k).1 = ((min k 5 : Nat) : Int))
      ∧ (∀ k : Nat, (running_ids (run_triggers 5 (fun _ => false) k).2).length + 1 ≤ 5) :=
  ⟨(C10_no_rollback_on_failed_start 5 0 (by decide) (fun _ => false) 0 (by decide) rfl).1,
   (C10_no_rollback_on_failed_start 5 0 (by decide) (fun _ => false) 0 (by decide) rfl).2.2.2.1,
   (C10_no_rollback_on_failed_start 5 0 (by decide) (fun _ => false) 0
      (by decide) rfl).2.2.2.2.2.1⟩

end Writers

/-- C5 on the code: with the LED device not ready and its configuration
failing with -19, `init_leds` returns 254 (the uint8_t holding -2), which is
not below 0, so `main` logs no "LED or Switch init failed" error and goes on
to create its four threads; in fact for every answer of the device the
result of `init_leds` is not negative and `main` creates all its threads, in
the WithGUI file (4 threads) and in the NoGUI file (3 threads). -/
theorem C5_init_failure_not_detected :
    (WithGUI.init_leds false (-19)).1 = 254
      ∧ (WithGUI.init_leds false 0).1 = 255
      ∧ ¬ (((WithGUI.init_leds false (-19)).1 : Int) < 0)
      ∧ claimed_stacks (WithGUI.main false (-19)).2
          = [Stack.display_stack, Stack.bme680_stack, Stack.adc_stack, Stack.led_stack]
      ∧ (∀ (ready : Bool) (rc : Int), ¬ (((WithGUI.init_leds ready rc).1 : Int) < 0))
      ∧ (∀ (ready : Bool) (rc : Int), claimed_stacks (WithGUI.main ready rc).2
          = [Stack.display_stack, Stack.bme680_stack, Stack.adc_stack, Stack.led_stack])
      ∧ (NoGUI.init_leds false false (-19) (-19)).1 = 254
      ∧ (∀ (r0 r1 : Bool) (c0 c1 : Int), claimed_stacks (NoGUI.main r0 r1 c0 c1)
          = [Stack.led0_stack, Stack.led1_stack, Stack.led2_stack]) := by
  refine ⟨by decide, by decide, by decide, by decide, ?_, ?_, by decide, ?_⟩
  · intro ready rc
    omega
  · intro ready rc
    have h : ¬ (((WithGUI.init_leds ready rc).1 : Int) < 0) := by omega
    simp only [WithGUI.main, if_neg h, claimed_stacks_append]
    cases ready <;> by_cases hrc : rc < 0 <;>
      simp [WithGUI.init_leds, WithGUI.update_leds, claimed_stacks, hrc]
  · intro r0 r1 c0 c1
    have h : ¬ (((NoGUI.init_leds r0 r1 c0 c1).1 : Int) < 0) := by omega
    simp only [NoGUI.main, if_neg h, claimed_stacks_append]
    cases r0 <;> cases r1 <;> by_cases h0 : c0 < 0 <;> by_cases h1 : c1 < 0 <;>
      simp [NoGUI.init_leds, claimed_stacks, h0, h1]

section MailboxLemmas

theorem texts_added_append (a b : List Event) :
    texts_added (a ++ b) = texts_added a ++ texts_added b := by
  induction a with
  | nil => rfl
  | cons e es ih => cases e <;> simp [texts_added, ih]

theorem mailbox_step_wf (n : Nat) (s : MailboxRun) (op : MailboxOp) (h : s.wf n) :
    (mailbox_step s op).wf n := by
  obtain ⟨hcap, hlen, hfifo⟩ := h
  subst hcap
  cases op with
  | try_send r =>
    by_cases hfull : s.q.msgs.length = s.q.max_msgs
    · simp [mailbox_step, k_msgq_put, hfull, MailboxRun.wf, ENOMSG, hfifo]
    · simp [mailbox_step, k_msgq_put, hfull, MailboxRun.wf, hfifo]
      omega
  | receive =>
    cases hq : s.q.msgs with
    | nil =>
      simp [mailbox_step, k_msgq_get, hq, MailboxRun.wf, ENOMSG, hfifo]
    | cons oldest rest =>
      rw [hq] at hlen hfifo
      simp [mailbox_step, k_msgq_get, hq, MailboxRun.wf, hfifo]
      simp at hlen
      omega

theorem mailbox_run_snoc (n : Nat) (ops : List MailboxOp) (op : MailboxOp) :
    mailbox_run n (ops ++ [op]) = mailbox_step (mailbox_run n ops) op := by
  simp [mailbox_run, List.foldl_append]

theorem mailbox_run_wf (n : Nat) (ops : List MailboxOp) : (mailbox_run n ops).wf n := by
  induction ops using List.reverseRecOn with
  | nil => simp [mailbox_run, MailboxRun.wf, k_msgq_init]
  | append_singleton ops op ih =>
    rw [mailbox_run_snoc]
    exact mailbox_step_wf n _ op ih

theorem display_body_some (n : Nat) (oldest : data_item_type) (rest : List data_item_type)
    (msg : data_item_type) :
    message_display_task_body { max_msgs := n, msgs := oldest :: rest } msg
      = (({ max_msgs := n, msgs := rest }, oldest),
         TASK_START ++ [Event.k_msgq_get (k_timeout.K_MSEC 100) 0]
          ++ [Event.text_add oldest.text] ++ TASK_END) := by
  simp [message_display_task_body, k_msgq_get]

theorem display_body_none (n : Nat) (msg : data_item_type) :
    message_display_task_body { max_msgs := n, msgs := [] } msg
      = (({ max_msgs := n, msgs := [] }, msg),
         TASK_START ++ [Event.k_msgq_get (k_timeout.K_MSEC 100) (-EAGAIN)]
          ++ [Event.log LogLevel.wrn "Message queue timeout" []] ++ TASK_END) := by
  simp [message_display_task_body, k_msgq_get, EAGAIN]

theorem display_loop_run (k n : Nat) (msgs : List data_item_type) (msg : data_item_type) :
    (message_display_task_loop k { max_msgs := n, msgs := msgs } msg).1.1
        = { max_msgs := n, msgs := msgs.drop k }
      ∧ texts_added (message_display_task_loop k { max_msgs := n, msgs := msgs } msg).2
        = (msgs.take k).map data_item_type.text
      ∧ count_warnings "Message queue timeout"
          (message_display_task_loop k { max_msgs := n, msgs := msgs } msg).2
        = k - msgs.length := by
  induction k generalizing msgs msg with
  | zero => simp [message_display_task_loop, texts_added, count_warnings]
  | succ k ih =>
    cases msgs with
    | nil =>
      simp only [message_display_task_loop, display_body_none]
      obtain ⟨h1, h2, h3⟩ := ih [] msg
      refine ⟨by simpa using h1, ?_, ?_⟩
      · rw [texts_added_append, h2]
        simp [texts_added, TASK_START, TASK_END]
      · rw [count_warnings_append, h3]
        simp [count_warnings, TASK_START, TASK_END]
        omega
    | cons oldest rest =>
      simp only [message_display_task_loop, display_body_some]
      obtain ⟨h1, h2, h3⟩ := ih rest oldest
      refine ⟨by simpa using h1, ?_, ?_⟩
      · rw [texts_added_append, h2]
        simp [texts_added, TASK_START, TASK_END]
      · rw [count_warnings_append, h3]
        simp [count_warnings, TASK_START, TASK_END]

theorem fmt_d_length (v : Int) (hlo : -2147483648 ≤ v) (hhi : v ≤ 2147483647) :
    (fmt_d v).length ≤ 11 := by
  have habs : v.natAbs < 10 ^ 10 := by omega
  have hlen := Nat.toDigitsCore_length 10 (by decide) (v.natAbs + 1) v.natAbs 10 habs
    (by decide)
  unfold fmt_d
  split
  · simp only [Nat.toDigits, List.length_cons]
    omega
  · simp only [Nat.toDigits]
    omega

end MailboxLemmas

/-- C6: one activation of `message_display_task`.  On a mailbox holding
`oldest :: rest` the receive succeeds: exactly `oldest` is removed, its text
is passed to display.text_add once and no timeout is logged.  On an empty
mailbox the receive times out: display.text_add is not called, the mailbox
and the local buffer are unchanged and one timeout warning is logged.  The
loop goes on after either outcome: `k` activations in a row display the first
`k` queued records in order and log one timeout for each activation beyond
them; the next activation after a timeout runs as any other. -/
theorem C6_display_activation (n : Nat) (oldest : data_item_type)
    (rest msgs : List data_item_type) (msg : data_item_type) (k : Nat) :
    (message_display_task_body { max_msgs := n, msgs := oldest :: rest } msg).1.1
        = { max_msgs := n, msgs := rest }
      ∧ texts_added
          (message_display_task_body { max_msgs := n, msgs := oldest :: rest } msg).2
        = [oldest.text]
      ∧ count_warnings "Message queue timeout"
          (message_display_task_body { max_msgs := n, msgs := oldest :: rest } msg).2 = 0
      ∧ (message_display_task_body { max_msgs := n, msgs := [] } msg).1
        = ({ max_msgs := n, msgs := [] }, msg)
      ∧ (message_display_task_body { max_msgs := n, msgs := [] } msg).2
        = [Event.k_timer_status_sync,
           Event.log LogLevel.dbg "START task %s" [],
           Event.k_msgq_get (k_timeout.K_MSEC 100) (-11),
           Event.log LogLevel.wrn "Message queue timeout" [],
           Event.log LogLevel.dbg "END task %s - %dms" []]
      ∧ texts_added (message_display_task_body { max_msgs := n, msgs := [] } msg).2 = []
      ∧ count_warnings "Message queue timeout"
          (message_display_task_body { max_msgs := n, msgs := [] } msg).2 = 1
      ∧ (message_display_task_loop (k + 1) { max_msgs := n, msgs := [] } msg).2
        = (message_display_task_body { max_msgs := n, msgs := [] } msg).2
          ++ (message_display_task_loop k { max_msgs := n, msgs := [] } msg).2
      ∧ texts_added (message_display_task_loop k { max_msgs := n, msgs := msgs } msg).2
        = (msgs.take k).map data_item_type.text
      ∧ count_warnings "Message queue timeout"
          (message_display_task_loop k { max_msgs := n, msgs := msgs } msg).2
        = k - msgs.length := by
  refine ⟨?_, ?_, ?_, ?_, ?_, ?_, ?_, ?_, (display_loop_run k n msgs msg).2.1,
    (display_loop_run k n msgs msg).2.2⟩
  · rw [display_body_some]
  · rw [display_body_some]; simp [texts_added, TASK_START, TASK_END]
  · rw [display_body_some]; simp [count_warnings, TASK_START, TASK_END]
  · rw [display_body_none]
  · rw [display_body_none]; simp [TASK_START, TASK_END, EAGAIN]
  · rw [display_body_none]; simp [texts_added, TASK_START, TASK_END]
  · rw [display_body_none]; simp [count_warnings, TASK_START, TASK_END]
  · simp only [message_display_task_loop, display_body_none]

namespace Writers

theorem writer_text_fits (writer_id : Int) (hlo : -2147483648 ≤ writer_id)
    (hhi : writer_id ≤ 2147483647) :
    snprintf MESSAGE_MAX_LEN
        ("Writer ".toList ++ fmt_d writer_id ++ ": writing a message".toList)
      = "Writer ".toList ++ fmt_d writer_id ++ ": writing a message".toList := by
  have hlen := fmt_d_length writer_id hlo hhi
  have h1 : "Writer ".toList.length = 7 := by decide
  have h2 : ": writing a message".toList.length = 19 := by decide
  unfold snprintf
  apply List.take_of_length_le
  rw [List.length_append, List.length_append, h1, h2]
  simp only [MESSAGE_MAX_LEN]
  omega

/-- C7: one iteration of `writer_task` for a writer id in the range of a
32-bit int.  It offers exactly one record, once and without waiting, and the
record is the text "Writer <id>: writing a message" in full.  On a mailbox
with free space (capacity `msgs.length + 1 + free`) the record is appended at
the tail, the occupancy grows by one and nothing is logged; on a full mailbox
(capacity `msgs.length`) the contents are unchanged and the calls are the
refused send, one warning and the sleep: no second send. -/
theorem C7_writer_iteration (writer_id : Int) (hlo : -2147483648 ≤ writer_id)
    (hhi : writer_id ≤ 2147483647) (msgs : List data_item_type) (free : Nat) :
    records_offered
        (writer_task_body writer_id { max_msgs := msgs.length + 1 + free, msgs := msgs }).2
        = [{ text := "Writer ".toList ++ fmt_d writer_id ++ ": writing a message".toList }]
      ∧ (writer_task_body writer_id { max_msgs := msgs.length + 1 + free, msgs := msgs }).1
        = { max_msgs := msgs.length + 1 + free,
            msgs := msgs ++ [{ text := "Writer ".toList ++ fmt_d writer_id
                                 ++ ": writing a message".toList }] }
      ∧ (writer_task_body writer_id
            { max_msgs := msgs.length + 1 + free, msgs := msgs }).1.msgs.length
        = msgs.length + 1
      ∧ (writer_task_body writer_id { max_msgs := msgs.length + 1 + free, msgs := msgs }).2
        = [Event.k_msgq_put
             { text := "Writer ".toList ++ fmt_d writer_id ++ ": writing a message".toList }
             k_timeout.K_NO_WAIT 0,
           Event.k_msleep 2000]
      ∧ (writer_task_body writer_id { max_msgs := msgs.length, msgs := msgs }).1
        = { max_msgs := msgs.length, msgs := msgs }
      ∧ (writer_task_body writer_id { max_msgs := msgs.length, msgs := msgs }).2
        = [Event.k_msgq_put
             { text := "Writer ".toList ++ fmt_d writer_id ++ ": writing a message".toList }
             k_timeout.K_NO_WAIT (-35),
           Event.log LogLevel.wrn "Message queue full. Message dropped." [],
           Event.k_msleep 2000] := by
  have htext := writer_text_fits writer_id hlo hhi
  have hfree : ¬ (msgs.length = msgs.length + 1 + free) := by omega
  refine ⟨?_, ?_, ?_, ?_, ?_, ?_⟩
  · simp only [writer_task_body, htext]
    simp [k_msgq_put, hfree, records_offered]
  · simp only [writer_task_body, htext]
    simp [k_msgq_put, hfree]
  · simp [writer_task_body, k_msgq_put, hfree]
  · simp only [writer_task_body, htext]
    simp [k_msgq_put, hfree]
  · simp [writer_task_body, k_msgq_put]
  · simp only [writer_task_body, htext]
    simp [k_msgq_put, ENOMSG]

/-- C7 for writer 3 on a mailbox of capacity 1, empty and then full. -/
theorem C7_writer_iteration_witness :
    (writer_task_body 3 { max_msgs := 1, msgs := [] }).1
        = { max_msgs := 1, msgs := [{ text := "Writer 3: writing a message".toList }] }
      ∧ (writer_task_body 3
          { max_msgs := 1, msgs := [{ text := "Writer 3: writing a message".toList }] }).1
        = { max_msgs := 1, msgs := [{ text := "Writer 3: writing a message".toList }] } :=
  ⟨(C7_writer_iteration 3 (by decide) (by decide) [] 0).2.1,
   (C7_writer_iteration 3 (by decide) (by decide)
      [{ text := "Writer 3: writing a message".toList }] 0).2.2.2.2.1⟩

end Writers

namespace Backup41b

/-- C8: one activation of `hello_task`.  On a full mailbox (capacity
`msgs.length`) the send is refused, the mailbox is purged once and is empty
afterwards, so the refused record is not in it, and a receive with zero
timeout right after fails (result -ENOMSG, buffer untouched).  On a mailbox
with free space (capacity `msgs.length + 1 + free`) the record
"hello task: hello" with its newline is appended at the tail and nothing is
purged. -/
theorem C8_hello_purges_on_full (msgs : List data_item_type) (free : Nat)
    (buf : data_item_type) :
    (hello_task_body { max_msgs := msgs.length, msgs := msgs }).1
        = { max_msgs := msgs.length, msgs := [] }
      ∧ count_purges (hello_task_body { max_msgs := msgs.length, msgs := msgs }).2 = 1
      ∧ count_warnings "Message queue full. Message dropped."
          (hello_task_body { max_msgs := msgs.length, msgs := msgs }).2 = 1
      ∧ k_msgq_get (hello_task_body { max_msgs := msgs.length, msgs := msgs }).1 buf
          k_timeout.K_NO_WAIT
        = (-35, buf, { max_msgs := msgs.length, msgs := [] })
      ∧ (k_msgq_get (hello_task_body { max_msgs := msgs.length, msgs := msgs }).1 buf
          k_timeout.K_NO_WAIT).1 ≠ 0
      ∧ (hello_task_body { max_msgs := msgs.length + 1 + free, msgs := msgs }).1
        = { max_msgs := msgs.length + 1 + free,
            msgs := msgs ++ [{ text := "hello task: hello\n".toList }] }
      ∧ count_purges (hello_task_body { max_msgs := msgs.length + 1 + free, msgs := msgs }).2
        = 0
      ∧ count_warnings "Message queue full. Message dropped."
          (hello_task_body { max_msgs := msgs.length + 1 + free, msgs := msgs }).2 = 0 := by
  have hfree : ¬ (msgs.length = msgs.length + 1 + free) := by omega
  have htext : snprintf MESSAGE_MAX_LEN "hello task: hello\n".toList
      = "hello task: hello\n".toList := by decide
  refine ⟨?_, ?_, ?_, ?_, ?_, ?_, ?_, ?_⟩
  · simp [hello_task_body, k_msgq_put, k_msgq_purge, ENOMSG]
  · simp [hello_task_body, k_msgq_put, ENOMSG, count_purges, TASK_START, TASK_END]
  · simp [hello_task_body, k_msgq_put, ENOMSG, count_warnings, TASK_START, TASK_END]
  · simp [hello_task_body, k_msgq_put, k_msgq_purge, k_msgq_get, ENOMSG]
  · simp [hello_task_body, k_msgq_put, k_msgq_purge, k_msgq_get, ENOMSG]
  · simp only [hello_task_body, htext]
    simp [k_msgq_put, hfree]
  · simp [hello_task_body, k_msgq_put, hfree, count_purges, TASK_START, TASK_END]
  · simp [hello_task_body, k_msgq_put, hfree, count_warnings, TASK_START, TASK_END]

end Backup41b

/-- C9: the mailbox initialised by k_msgq_init for `n` records, after any
sequence of non-blocking sends and receives.  Its capacity is `n` and its
occupancy at most `n`; the records enqueued so far are the records received so
far followed by the records still queued, so records are received in the
order they were enqueued; a further send is Rejected exactly when the
occupancy is `n` and otherwise appends at the tail; a further receive succeeds
exactly when some enqueued record is not yet received and returns the oldest
such record.  The mailbox `my_msgq` of `main` is this mailbox for 10 records.
With capacity 2: send A, send B are Enqueued, send C is Rejected, then A and B
are received in this order and the next receive times out. -/
theorem C9_mailbox_bounded_fifo (n : Nat) (ops : List MailboxOp) (r buf : data_item_type) :
    (mailbox_run n ops).q.max_msgs = n
      ∧ (mailbox_run n ops).q.msgs.length ≤ n
      ∧ (mailbox_run n ops).enqueued
        = (mailbox_run n ops).received ++ (mailbox_run n ops).q.msgs
      ∧ (mailbox_run n ops).received <+: (mailbox_run n ops).enqueued
      ∧ ((k_msgq_put (mailbox_run n ops).q r k_timeout.K_NO_WAIT).1 ≠ 0
          ↔ (mailbox_run n ops).q.msgs.length = n)
      ∧ (k_msgq_put (mailbox_run n ops).q r k_timeout.K_NO_WAIT).2.msgs
        = (if (mailbox_run n ops).q.msgs.length = n then (mailbox_run n ops).q.msgs
           else (mailbox_run n ops).q.msgs ++ [r])
      ∧ (if (k_msgq_get (mailbox_run n ops).q buf k_timeout.K_NO_WAIT).1 = 0
         then some (k_msgq_get (mailbox_run n ops).q buf k_timeout.K_NO_WAIT).2.1 else none)
        = (mailbox_run n ops).enqueued[(mailbox_run n ops).received.length]?
      ∧ (mailbox_run Writers.MESSAGE_QUEUE_SIZE []).q = Writers.my_msgq
      ∧ Writers.my_msgq.max_msgs = 10
      ∧ (mailbox_run 2
          [MailboxOp.try_send { text := ['A'] }, MailboxOp.try_send { text := ['B'] },
           MailboxOp.try_send { text := ['C'] }, MailboxOp.receive, MailboxOp.receive,
           MailboxOp.receive]).outcomes
        = [MailboxOutcome.Enqueued, MailboxOutcome.Enqueued, MailboxOutcome.Rejected,
           MailboxOutcome.Received { text := ['A'] },
           MailboxOutcome.Received { text := ['B'] }, MailboxOutcome.Timeout] := by
  obtain ⟨hcap, hlen, hfifo⟩ := mailbox_run_wf n ops
  refine ⟨hcap, hlen, hfifo, ⟨_, hfifo.symm⟩, ?_, ?_, ?_, rfl, rfl, by decide⟩
  · by_cases hfull : (mailbox_run n ops).q.msgs.length = (mailbox_run n ops).q.max_msgs
    · have he : (mailbox_run n ops).q.msgs.length = n := hfull.trans hcap
      simp [k_msgq_put, hfull, ENOMSG, hcap]
    · have hne : ¬ (mailbox_run n ops).q.msgs.length = n := fun h => hfull (h.trans hcap.symm)
      simp [k_msgq_put, hfull, hne]
  · by_cases hfull : (mailbox_run n ops).q.msgs.length = (mailbox_run n ops).q.max_msgs
    · have he : (mailbox_run n ops).q.msgs.length = n := hfull.trans hcap
      rw [if_pos he]
      simp [k_msgq_put, hfull]
    · have hne : ¬ (mailbox_run n ops).q.msgs.length = n := fun h => hfull (h.trans hcap.symm)
      rw [if_neg hne]
      simp [k_msgq_put, hfull]
  · rw [hfifo, List.getElem?_append_right (Nat.le_refl _)]
    cases hq : (mailbox_run n ops).q.msgs with
    | nil => simp [k_msgq_get, hq, ENOMSG]
    | cons oldest rest => simp [k_msgq_get, hq]

section FormatLemmas

theorem toDigits_length_le (n e : Nat) (h : n < 10 ^ e) (he : 0 < e) :
    (Nat.toDigits 10 n).length ≤ e := by
  unfold Nat.toDigits
  exact Nat.toDigitsCore_length 10 (by decide) (n + 1) n e h he

theorem snprintf_length (size : Nat) (formatted : List Char) (hs : 0 < size) :
    (snprintf size formatted).length + 1 ≤ size := by
  unfold snprintf
  rw [List.length_take]
  omega

theorem fmt_0d_scaled_length (v : Int) (h : is_int32 v) :
    (fmt_0d 2 (v.tdiv 10000)).length ≤ 7 := by
  obtain ⟨hlo, hhi⟩ := h
  have habs : (v.tdiv 10000).natAbs < 10 ^ 6 := by
    rw [Int.natAbs_tdiv]
    show v.natAbs / 10000 < 10 ^ 6
    omega
  have hlen := toDigits_length_le (v.tdiv 10000).natAbs 6 habs (by decide)
  unfold fmt_0d
  simp only [List.length_append, List.length_replicate]
  split
  · simp only [List.length_cons, List.length_nil]
    omega
  · simp only [List.length_nil]
    omega

theorem fmt_readings_length (temperature humidity : sensor_value)
    (ht1 : is_int32 temperature.val1) (ht2 : is_int32 temperature.val2)
    (hh1 : is_int32 humidity.val1) (hh2 : is_int32 humidity.val2) :
    (fmt_readings temperature humidity).length ≤ 41 := by
  have a1 := fmt_d_length temperature.val1 ht1.1 ht1.2
  have a2 := fmt_0d_scaled_length temperature.val2 ht2
  have a3 := fmt_d_length humidity.val1 hh1.1 hh1.2
  have a4 := fmt_0d_scaled_length humidity.val2 hh2
  have hsep : " - ".toList.length = 3 := by decide
  unfold fmt_readings
  simp only [List.length_append, List.length_cons, List.length_nil, hsep]
  omega

theorem writer_records_offered (writer_id : Int) (q : k_msgq) :
    records_offered (Writers.writer_task_body writer_id q).2
      = [{ text := snprintf 50
            ("Writer ".toList ++ fmt_d writer_id ++ ": writing a message".toList) }] := by
  by_cases h : q.msgs.length = q.max_msgs <;>
    simp [Writers.writer_task_body, Writers.MESSAGE_MAX_LEN, k_msgq_put, h, records_offered,
      ENOMSG]

theorem hello_records_offered (q : k_msgq) :
    records_offered (Backup41b.hello_task_body q).2
      = [{ text := snprintf 50 "hello task: hello\n".toList }] := by
  by_cases h : q.msgs.length = q.max_msgs <;>
    simp [Backup41b.hello_task_body, Backup41b.MESSAGE_MAX_LEN, k_msgq_put, h,
      records_offered, ENOMSG, TASK_START, TASK_END]

theorem backup_display_records_offered (temperature humidity : sensor_value) (q : k_msgq) :
    records_offered (Backup41b.display_task_body temperature humidity q).2
      = [{ text := snprintf 50
            ("display task: ".toList ++ fmt_readings temperature humidity) }] := by
  by_cases h : q.msgs.length = q.max_msgs <;>
    simp [Backup41b.display_task_body, Backup41b.MESSAGE_MAX_LEN, k_msgq_put, h,
      records_offered, ENOMSG, TASK_START, TASK_END]

end FormatLemmas

/-- The snprintf of the backup `display_task` does cut its record: with all
four sensor fields at the smallest int32 the formatted text has 55
characters and the record keeps the first 49. -/
theorem backup_display_record_cut :
    ("display task: ".toList
        ++ fmt_readings { val1 := -2147483648, val2 := -2147483648 }
            { val1 := -2147483648, val2 := -2147483648 }).length = 55
      ∧ records_offered
          (Backup41b.display_task_body { val1 := -2147483648, val2 := -2147483648 }
            { val1 := -2147483648, val2 := -2147483648 } (k_msgq_init 10)).2
        = [{ text := "display task: -2147483648.-214748 - -2147483648.-".toList }] := by
  constructor <;> decide

/-- C11: for every 32-bit signed writer id, sensor field and ADC value, every
text the tasks format fits the 50-byte buffer with its terminating NUL.  The
two sprintf calls of `display_task` (WithGUI) write at most 42 and 12 bytes,
so neither overruns `text[50]` and the activation completes, displaying both
texts in full.  Each iteration of `writer_task`, `hello_task` and of the
backup `display_task` offers exactly one record, built with snprintf, of at
most 49 characters; the text of `writer_task` needs at most 38 bytes, so it
is never cut. -/
theorem C11_records_fit_buffer (writer_id adc_value : Int) (temperature humidity : sensor_value)
    (q : k_msgq)
    (hw : is_int32 writer_id) (ha : is_int32 adc_value)
    (ht1 : is_int32 temperature.val1) (ht2 : is_int32 temperature.val2)
    (hh1 : is_int32 humidity.val1) (hh2 : is_int32 humidity.val2) :
    (fmt_readings temperature humidity).length + 1 ≤ 42
      ∧ (fmt_d adc_value).length + 1 ≤ 12
      ∧ sprintf 50 (fmt_readings temperature humidity)
        = some (fmt_readings temperature humidity)
      ∧ sprintf 50 (fmt_d adc_value) = some (fmt_d adc_value)
      ∧ WithGUI.display_task_body temperature humidity adc_value
        = some (WithGUI.TASK_START
            ++ [Event.task_handler, Event.chart_add_temperature, Event.chart_add_humidity,
                Event.text_add (fmt_readings temperature humidity),
                Event.text_add (fmt_d adc_value)]
            ++ WithGUI.TASK_END)
      ∧ (records_offered (Writers.writer_task_body writer_id q).2).length = 1
      ∧ (∀ d ∈ records_offered (Writers.writer_task_body writer_id q).2,
          d.text.length + 1 ≤ 50)
      ∧ (records_offered (Backup41b.hello_task_body q).2).length = 1
      ∧ (∀ d ∈ records_offered (Backup41b.hello_task_body q).2, d.text.length + 1 ≤ 50)
      ∧ (records_offered (Backup41b.display_task_body temperature humidity q).2).length = 1
      ∧ (∀ d ∈ records_offered (Backup41b.display_task_body temperature humidity q).2,
          d.text.length + 1 ≤ 50)
      ∧ ("Writer ".toList ++ fmt_d writer_id ++ ": writing a message".toList).length + 1
        ≤ 38 := by
  have hwriter := fmt_d_length writer_id hw.1 hw.2
  have hp1 : "Writer ".toList.length = 7 := by decide
  have hp2 : ": writing a message".toList.length = 19 := by decide
  have hread := fmt_readings_length temperature humidity ht1 ht2 hh1 hh2
  have hadc := fmt_d_length adc_value ha.1 ha.2
  have hs1 : sprintf 50 (fmt_readings temperature humidity)
      = some (fmt_readings temperature humidity) := by
    unfold sprintf
    rw [if_pos (by omega)]
  have hs2 : sprintf 50 (fmt_d adc_value) = some (fmt_d adc_value) := by
    unfold sprintf
    rw [if_pos (by omega)]
  refine ⟨by omega, by omega, hs1, hs2, ?_, ?_, ?_, ?_, ?_, ?_, ?_, ?_⟩
  · simp only [WithGUI.display_task_body, hs1, hs2]
  · rw [writer_records_offered]; rfl
  · intro d hd
    rw [writer_records_offered, List.mem_singleton] at hd
    subst hd
    exact snprintf_length 50 _ (by decide)
  · rw [hello_records_offered]; rfl
  · intro d hd
    rw [hello_records_offered, List.mem_singleton] at hd
    subst hd
    exact snprintf_length 50 _ (by decide)
  · rw [backup_display_records_offered]; rfl
  · intro d hd
    rw [backup_display_records_offered, List.mem_singleton] at hd
    subst hd
    exact snprintf_length 50 _ (by decide)
  · rw [List.length_append, List.length_append, hp1, hp2]
    omega

/-- C11 at writer 3, ADC value 1234, 23.45 degrees and 41.07 percent, on the
empty mailbox of 10 records: the texts are "23.45 - 41.07" and "1234" and
both sprintf calls fit. -/
theorem C11_records_fit_buffer_witness :
    (fmt_readings { val1 := 23, val2 := 450000 } { val1 := 41, val2 := 70000 }).length + 1
        ≤ 42
      ∧ sprintf 50 (fmt_readings { val1 := 23, val2 := 450000 } { val1 := 41, val2 := 70000 })
        = some "23.45 - 41.07".toList
      ∧ sprintf 50 (fmt_d 1234) = some "1234".toList
      ∧ (records_offered (Writers.writer_task_body 3 (k_msgq_init 10)).2).length = 1 :=
  ⟨(C11_records_fit_buffer 3 1234 { val1 := 23, val2 := 450000 } { val1 := 41, val2 := 70000 }
      (k_msgq_init 10) (by decide) (by decide) (by decide) (by decide) (by decide)
      (by decide)).1,
   (C11_records_fit_buffer 3 1234 { val1 := 23, val2 := 450000 } { val1 := 41, val2 := 70000 }
      (k_msgq_init 10) (by decide) (by decide) (by decide) (by decide) (by decide)
      (by decide)).2.2.1,
   (C11_records_fit_buffer 3 1234 { val1 := 23, val2 := 450000 } { val1 := 41, val2 := 70000 }
      (k_msgq_init 10) (by decide) (by decide) (by decide) (by decide) (by decide)
      (by decide)).2.2.2.1,
   (C11_records_fit_buffer 3 1234 { val1 := 23, val2 := 450000 } { val1 := 41, val2 := 70000 }
      (k_msgq_init 10) (by decide) (by decide) (by decide) (by decide) (by decide)
      (by decide)).2.2.2.2.2.1⟩
